import Mathlib

/-!
Verification of the filter-to-query compiler and result aggregator of the
JPM graph API (src/models/schemas.py, src/utils/query_builder.py,
src/services/graph_service.py, src/api/routes.py).

Engine identifiers (the ids the Neo4j driver reports for nodes and
relationships) are modelled as opaque strings: the code only compares them
for equality and converts them with str(), which is injective, so nothing
is lost.  Python dicts that carry caller data (the min/max range dicts and
the parameter map) are modelled as insertion-ordered association lists;
Python truthiness of an optional list or dict (None and empty are falsy)
is modelled explicitly.  The driver's Node and Relationship objects are
Mappings over their property dicts, so the aggregator's `if node` and
`if rel` guards are falsy not only for null entries but also for
property-less entities; the embedding models both.
-/

/-- Parameter and property values that flow through the query builder and
the aggregator: strings, integers, rationals (for the float-valued rating
ranges, which the code only copies, never computes with) and string lists. -/
inductive Val : Type where
  | str : String → Val
  | int : Int → Val
  | num : Rat → Val
  | strList : List String → Val
  deriving DecidableEq

/-- Parameter map of a compiled query, in insertion order. -/
abbrev Params := List (String × Val)

/-- NodeType enumeration of src/models/schemas.py. -/
inductive NodeType : Type where
  | CONSULTANT | FIELD_CONSULTANT | COMPANY | PRODUCT
  deriving DecidableEq

/-- String value of a NodeType member (NodeType is a str-valued Enum). -/
def NodeType.value : NodeType → String
  | .CONSULTANT => "CONSULTANT"
  | .FIELD_CONSULTANT => "FIELD_CONSULTANT"
  | .COMPANY => "COMPANY"
  | .PRODUCT => "PRODUCT"

/-- GraphFilters of src/models/schemas.py.  Every field is optional and
defaults to None.  The range dicts keep their Python dict representation:
an association list in insertion order (Dict[str, float] for rating_range,
Dict[str, int] for rank_order_range, Dict[str, Any] for
consultant_product_ratings). -/
structure GraphFilters : Type where
  regions : Option (List String) := none
  market : Option (List String) := none
  channels : Option (List String) := none
  node_types : Option (List NodeType) := none
  field_consultant : Option (List String) := none
  product : Option (List String) := none
  client_companies : Option (List String) := none
  consultant_companies : Option (List String) := none
  asset_classes : Option (List String) := none
  consultant_product_ratings : Option (List (String × Val)) := none
  mandate_status : Option (List String) := none
  privacy_levels : Option (List String) := none
  level_of_influence : Option (List String) := none
  pca : Option (List String) := none
  aca : Option (List String) := none
  client_advisors : Option (List String) := none
  consultant_advisors : Option (List String) := none
  rating_range : Option (List (String × Rat)) := none
  rating_change : Option (List String) := none
  rank_group : Option (List String) := none
  rank_order_range : Option (List (String × Int)) := none
  deriving DecidableEq

/-- GraphQuery of src/models/schemas.py: limit defaults to 1000 and offset
to 0 in the request model (pydantic Field defaults). -/
structure GraphQuery : Type where
  filters : Option GraphFilters := none
  limit : Option Int := some 1000
  offset : Option Int := some 0
  deriving DecidableEq

/-- Python truthiness of an optional list: None and [] are falsy. -/
def truthy {α : Type} (o : Option (List α)) : Bool :=
  match o with
  | none => false
  | some l => !l.isEmpty

/-- Python `k in d` on an optional dict. -/
def hasKey {α : Type} (k : String) (o : Option (List (String × α))) : Bool :=
  match o with
  | none => false
  | some l => l.any (fun p => p.1 == k)

/-- Python `x or d` on an optional integer: None and 0 give the default. -/
def pyOrInt (o : Option Int) (d : Int) : Int :=
  match o with
  | none => d
  | some v => if v = 0 then d else v

/-! Query fragments exactly as build_graph_query appends them
(src/utils/query_builder.py). -/

def nodeOnlyBaseQuery : String :=
  "\n        MATCH (n)\n        OPTIONAL MATCH (n)-[r]-(m)\n        "

def relationshipBaseQuery : String :=
  "\n            MATCH (n)-[r]-(m)\n            "

def returnClause : String :=
  "\n        RETURN n, \n               collect(DISTINCT r) as relationships, \n               collect(DISTINCT m) as connected_nodes\n        LIMIT $limit\n        "

def nodeTypesFragment : String :=
  "any(label IN labels(n) WHERE label IN $node_types)"

def regionsFragment : String :=
  "\n                    (n.region IN $regions OR \n                     any(region IN n.sales_region WHERE region IN $regions) OR\n                     any(region IN n.region WHERE region IN $regions))\n                "

def marketFragment : String := "n.market IN $market"

def channelsFragment : String :=
  "\n                    (n.channel IN $channels OR \n                     any(channel IN n.channel WHERE channel IN $channels))\n                "

def assetClassesFragment : String := "n.asset_class IN $asset_classes"

def mandateStatusFragment : String := "n.mandate_status IN $mandate_status"

def privacyLevelsFragment : String := "n.privacy IN $privacy_levels"

def influenceFragment : String := "n.level_of_influence IN $level_of_influence"

def pcaFragment : String := "n.pca IN $pca"

def acaFragment : String := "n.aca IN $aca"

def fieldConsultantFragment : String :=
  "n.name IN $field_consultant OR n.id IN $field_consultant"

def productFragment : String :=
  "n.name IN $product OR n.id IN $product OR n.product_id IN $product"

def clientCompaniesFragment : String :=
  "n.name IN $client_companies OR n.id IN $client_companies"

def consultantCompaniesFragment : String :=
  "n.name IN $consultant_companies OR n.id IN $consultant_companies"

def clientAdvisorsFragment : String := "n.client_advisor IN $client_advisors"

def consultantAdvisorsFragment : String :=
  "n.consultant_advisor IN $consultant_advisors"

def cprFragment : String :=
  "r.rankvalue >= $min_rating AND r.rankvalue <= $max_rating"

def ratingRangeFragment : String :=
  "r.rankvalue >= $rating_min AND r.rankvalue <= $rating_max"

def ratingChangeFragment : String := "r.rating_change IN $rating_change"

def rankGroupFragment : String := "r.rankgroup IN $rank_group"

def rankOrderFragment : String :=
  "r.rankorder >= $rank_min AND r.rankorder <= $rank_max"

/-- One `if <field truthy>: where_conditions.append(frag); parameters[name] = v`
step of build_graph_query: a pair (condition fragments, parameters) that is
empty when the guard is false. -/
def condIf (b : Bool) (frag : String) (p : String × Val) : List String × Params :=
  if b then ([frag], [p]) else ([], [])

/-- Concatenation of two (conditions, parameters) pairs, in append order. -/
def pcat (a b : List String × Params) : List String × Params :=
  (a.1 ++ b.1, a.2 ++ b.2)

/-- Node-level conditions and parameters of build_graph_query, in the order
the source appends them (node_types, regions, market, channels,
asset_classes, mandate_status, privacy_levels, level_of_influence, pca,
aca, field_consultant, product, client_companies, consultant_companies,
client_advisors, consultant_advisors). -/
def nodeConditions (fo : Option GraphFilters) : List String × Params :=
  match fo with
  | none => ([], [])
  | some f =>
    pcat (condIf (truthy f.node_types) nodeTypesFragment
            ("node_types", Val.strList ((f.node_types.getD []).map NodeType.value)))
    (pcat (condIf (truthy f.regions) regionsFragment
            ("regions", Val.strList (f.regions.getD [])))
    (pcat (condIf (truthy f.market) marketFragment
            ("market", Val.strList (f.market.getD [])))
    (pcat (condIf (truthy f.channels) channelsFragment
            ("channels", Val.strList (f.channels.getD [])))
    (pcat (condIf (truthy f.asset_classes) assetClassesFragment
            ("asset_classes", Val.strList (f.asset_classes.getD [])))
    (pcat (condIf (truthy f.mandate_status) mandateStatusFragment
            ("mandate_status", Val.strList (f.mandate_status.getD [])))
    (pcat (condIf (truthy f.privacy_levels) privacyLevelsFragment
            ("privacy_levels", Val.strList (f.privacy_levels.getD [])))
    (pcat (condIf (truthy f.level_of_influence) influenceFragment
            ("level_of_influence", Val.strList (f.level_of_influence.getD [])))
    (pcat (condIf (truthy f.pca) pcaFragment
            ("pca", Val.strList (f.pca.getD [])))
    (pcat (condIf (truthy f.aca) acaFragment
            ("aca", Val.strList (f.aca.getD [])))
    (pcat (condIf (truthy f.field_consultant) fieldConsultantFragment
            ("field_consultant", Val.strList (f.field_consultant.getD [])))
    (pcat (condIf (truthy f.product) productFragment
            ("product", Val.strList (f.product.getD [])))
    (pcat (condIf (truthy f.client_companies) clientCompaniesFragment
            ("client_companies", Val.strList (f.client_companies.getD [])))
    (pcat (condIf (truthy f.consultant_companies) consultantCompaniesFragment
            ("consultant_companies", Val.strList (f.consultant_companies.getD [])))
    (pcat (condIf (truthy f.client_advisors) clientAdvisorsFragment
            ("client_advisors", Val.strList (f.client_advisors.getD [])))
          (condIf (truthy f.consultant_advisors) consultantAdvisorsFragment
            ("consultant_advisors", Val.strList (f.consultant_advisors.getD [])))))))))))))))))

/-- Guard of the consultant_product_ratings relationship filter: the dict is
truthy and has a min or a max key. -/
def cprGuard (f : GraphFilters) : Bool :=
  truthy f.consultant_product_ratings
    && (hasKey "min" f.consultant_product_ratings
        || hasKey "max" f.consultant_product_ratings)

/-- One `if <guard>: relationship_filters.append(frag); parameters[a] = x;
parameters[b] = y` step of build_graph_query, for the range filters that
bind two parameters. -/
def condIf2 (b : Bool) (frag : String) (p q : String × Val) : List String × Params :=
  if b then ([frag], [p, q]) else ([], [])

/-- Relationship-level filters of build_graph_query, in source order:
consultant_product_ratings (only when min or max is present), rating_range,
rating_change, rank_group, rank_order_range.  The range parameters fill a
missing min with the domain floor (0 for ratings, 1 for rank order) and a
missing max with the domain ceiling (10 for ratings, 100 for rank order),
via dict.get defaults. -/
def relationshipFilters (fo : Option GraphFilters) : List String × Params :=
  match fo with
  | none => ([], [])
  | some f =>
    pcat (condIf2 (cprGuard f) cprFragment
            ("min_rating", (((f.consultant_product_ratings.getD []).lookup "min").getD (Val.int 0)))
            ("max_rating", (((f.consultant_product_ratings.getD []).lookup "max").getD (Val.int 10))))
    (pcat (condIf2 (truthy f.rating_range) ratingRangeFragment
            ("rating_min", Val.num (((f.rating_range.getD []).lookup "min").getD 0))
            ("rating_max", Val.num (((f.rating_range.getD []).lookup "max").getD 10)))
    (pcat (condIf (truthy f.rating_change) ratingChangeFragment
            ("rating_change", Val.strList (f.rating_change.getD [])))
    (pcat (condIf (truthy f.rank_group) rankGroupFragment
            ("rank_group", Val.strList (f.rank_group.getD [])))
          (condIf2 (truthy f.rank_order_range) rankOrderFragment
            ("rank_min", Val.int (((f.rank_order_range.getD []).lookup "min").getD 1))
            ("rank_max", Val.int (((f.rank_order_range.getD []).lookup "max").getD 100))))))

/-- CypherQueryBuilder.build_graph_query (src/utils/query_builder.py):
assembles the base pattern (node-only, or relationship traversal when any
relationship filter compiled), the WHERE conjunction of node conditions
followed by relationship filters, the RETURN/LIMIT clause, and the
parameter map ending with the limit (query.limit or 1000, Python or). -/
def build_graph_query (q : GraphQuery) : String × Params :=
  let nodePart := nodeConditions q.filters
  let relPart := relationshipFilters q.filters
  let base_query := if relPart.1.isEmpty then nodeOnlyBaseQuery else relationshipBaseQuery
  let where_conditions := nodePart.1 ++ relPart.1
  let withWhere :=
    if where_conditions.isEmpty then base_query
    else base_query ++ " WHERE " ++ String.intercalate " AND " where_conditions
  (withWhere ++ returnClause,
   nodePart.2 ++ relPart.2 ++ [("limit", Val.int (pyOrInt q.limit 1000))])

/-- CypherQueryBuilder.build_node_detail_query query text. -/
def nodeDetailQueryText : String :=
  "\n        MATCH (n) WHERE id(n) = $node_id\n        OPTIONAL MATCH (n)-[r]-(m)\n        RETURN n, \n               collect(r) as relationships, \n               collect(m) as connected_nodes\n        "

/-- Decimal digits folded into a number; none on the first non-digit. -/
def decDigits : List Char → Nat → Option Nat
  | [], acc => some acc
  | c :: rest, acc =>
    if c.isDigit then decDigits rest (acc * 10 + (c.toNat - 48)) else none

/-- Python int() on a string: an optional sign followed by at least one
decimal digit; anything else raises ValueError (modelled as none). -/
def pyInt? (s : String) : Option Int :=
  match s.data with
  | [] => none
  | c :: rest =>
    if c = '-' then
      match rest with
      | [] => none
      | _ => (decDigits rest 0).map (fun n => -(n : Int))
    else if c = '+' then
      match rest with
      | [] => none
      | _ => (decDigits rest 0).map (fun n => (n : Int))
    else (decDigits s.data 0).map (fun n => (n : Int))

/-- CypherQueryBuilder.build_node_detail_query: binds int(node_id) as the
node_id parameter.  int() raises ValueError on a string that is not a
decimal integer, modelled with Except. -/
def build_node_detail_query (node_id : String) : Except String (String × Params) :=
  match pyInt? node_id with
  | none => .error ("invalid literal for int() with base 10: " ++ node_id)
  | some i => .ok (nodeDetailQueryText, [("node_id", Val.int i)])

/-- Raw node of a traversal row as the driver reports it: engine id, label
list and property map. -/
structure RawNode : Type where
  id : String
  labels : List String
  props : List (String × Val)
  deriving DecidableEq

/-- Raw relationship of a traversal row: engine id, the engine ids of its
start and end node, its type and its property map. -/
structure RawRel : Type where
  id : String
  startId : String
  endId : String
  type : String
  props : List (String × Val)
  deriving DecidableEq

/-- Raw row of a traversal result: the primary node n, the collected
connected nodes and the collected relationships; every entry may be null
(the OPTIONAL MATCH can produce nothing). -/
structure RawRecord : Type where
  n : Option RawNode
  connected_nodes : List (Option RawNode)
  relationships : List (Option RawRel)
  deriving DecidableEq

/-- Node dict built by GraphService._process_results: id, labels, the type
(first label, or Unknown when there are none) and the node properties
(splatted into the same dict, so a property can shadow a built key). -/
structure NodeOut : Type where
  id : String
  labels : List String
  type : String
  props : List (String × Val)
  deriving DecidableEq

/-- Edge dict built by GraphService._process_results: id, source and target
engine ids, the relationship type and the relationship properties. -/
structure EdgeOut : Type where
  id : String
  source : String
  target : String
  type : String
  props : List (String × Val)
  deriving DecidableEq

/-- Node dict for one raw node, as _process_results builds it. -/
def mkNodeOut (nd : RawNode) : NodeOut :=
  { id := nd.id, labels := nd.labels, type := nd.labels.headD "Unknown",
    props := nd.props }

/-- Edge dict for one raw relationship, as _process_results builds it. -/
def mkEdgeOut (rl : RawRel) : EdgeOut :=
  { id := rl.id, source := rl.startId, target := rl.endId, type := rl.type,
    props := rl.props }

/-- One `if x.id not in seen: out.append(mk x); seen.add(x.id)` step of
_process_results, over an (output list, seen ids) pair.  The seen set is
modelled as the list of ids in insertion order; only membership is used. -/
def insertBy {α β : Type} (key : α → String) (mk : α → β)
    (st : List β × List String) (x : α) : List β × List String :=
  if key x ∈ st.2 then st else (st.1 ++ [mk x], st.2 ++ [key x])

/-- Python truthiness filter for the `if main_node`/`if connected_node`
guards of _process_results: a None entry is falsy, and the neo4j driver
Node is a Mapping over its property dict (which is what lets the code
splat `**dict(node)`), so a property-less node is falsy as well and the
guard skips it. -/
def truthyNode (o : Option RawNode) : Option RawNode :=
  match o with
  | none => none
  | some nd => if nd.props.isEmpty then none else some nd

/-- Python truthiness filter for the `if rel` guard of _process_results:
a None entry is falsy, and the driver Relationship is a Mapping over its
property dict, so a property-less relationship is falsy and the guard
skips it — in this schema every EMPLOYS and COVERS relationship carries
no properties and is therefore dropped. -/
def truthyRel (o : Option RawRel) : Option RawRel :=
  match o with
  | none => none
  | some rl => if rl.props.isEmpty then none else some rl

/-- Nodes of one raw row that pass the `if main_node`/`if connected_node`
truthiness guards, in processing order: the primary node first, then the
connected nodes. -/
def rawNodesOf (r : RawRecord) : List RawNode :=
  (truthyNode r.n).toList ++ r.connected_nodes.filterMap truthyNode

/-- Relationships of one raw row that pass the `if rel` truthiness guard,
in processing order. -/
def rawRelsOf (r : RawRecord) : List RawRel :=
  r.relationships.filterMap truthyRel

/-- Aggregation state: (nodes, node_ids) and (edges, edge_ids). -/
abbrev AggState := (List NodeOut × List String) × (List EdgeOut × List String)

/-- One iteration of the record loop of _process_results: insert the
primary node, the connected nodes, then the relationships.  Node inserts
and edge inserts touch disjoint state. -/
def processRecord (a : AggState) (r : RawRecord) : AggState :=
  ((rawNodesOf r).foldl (insertBy RawNode.id mkNodeOut) a.1,
   (rawRelsOf r).foldl (insertBy RawRel.id mkEdgeOut) a.2)

/-- GraphService._process_results (src/services/graph_service.py): fold the
raw rows over empty lists and empty seen sets, and return the node list
and edge list. -/
def process_results (rows : List RawRecord) : List NodeOut × List EdgeOut :=
  let a := rows.foldl processRecord (([], []), ([], []))
  (a.1.1, a.2.1)

/-- Concatenation of the per-row lists, used to state what the fold keeps. -/
def concatMap {α β : Type} (f : α → List β) : List α → List β
  | [] => []
  | x :: xs => f x ++ concatMap f xs

/-- First-wins deduplication keyed by `key`, skipping keys already in
`seen`: the list of elements the insert loop of _process_results actually
keeps, in order of first encounter. -/
def firstOccBy {α : Type} (key : α → String) (seen : List String) : List α → List α
  | [] => []
  | x :: xs =>
    if key x ∈ seen then firstOccBy key seen xs
    else x :: firstOccBy key (seen ++ [key x]) xs

/-- Python dict value read with a shadowing splat: the merged dict
`{..., 'type': t, **props}` yields the property value when props has the
key, else the built value. -/
def mergedGet (props : List (String × Val)) (k : String) (builtVal : Val) : Val :=
  ((props.lookup k).getD builtVal)

/-- Effective 'type' key of a node dict (a node property named type
shadows the built value, because the property splat comes last). -/
def NodeOut.typeKey (nd : NodeOut) : Val := mergedGet nd.props "type" (Val.str nd.type)

/-- Effective 'type' key of an edge dict. -/
def EdgeOut.typeKey (e : EdgeOut) : Val := mergedGet e.props "type" (Val.str e.type)

/-- Python `'mandate_status' in edge` on the merged edge dict: the built
keys are id, source, target and type, so the test holds exactly when the
relationship properties carry the key. -/
def EdgeOut.hasMandateStatus (e : EdgeOut) : Bool :=
  ((e.props.lookup "mandate_status").isSome)

/-- Value of edge['mandate_status'] (only read under the guard above). -/
def EdgeOut.mandateStatus (e : EdgeOut) : Val :=
  ((e.props.lookup "mandate_status").getD (Val.str ""))

/-- One `d[k] = d.get(k, 0) + 1` step on an insertion-ordered counts dict. -/
def bump (m : List (Val × Nat)) (k : Val) : List (Val × Nat) :=
  match m with
  | [] => [(k, 1)]
  | (k₂, v) :: rest => if k₂ = k then (k₂, v + 1) :: rest else (k₂, v) :: bump rest k

/-- Sum of the values of a counts dict. -/
def sumVals (m : List (Val × Nat)) : Nat := (m.map (fun p => p.2)).sum

/-- Count looked up in a counts dict, 0 when the key is absent. -/
def getCount (m : List (Val × Nat)) (k : Val) : Nat :=
  ((m.filter (fun p => p.1 = k)).map (fun p => p.2)).sum

/-- Guard of the mandate-status distribution loop of _calculate_metadata:
edge.get('type') == 'OWNS' and 'mandate_status' in edge. -/
def mandateGuard (e : EdgeOut) : Bool :=
  (e.typeKey == Val.str "OWNS") && e.hasMandateStatus

/-- Metadata payload of GraphService._calculate_metadata. -/
structure Metadata : Type where
  total_nodes : Nat
  total_edges : Nat
  node_type_counts : List (Val × Nat)
  edge_type_counts : List (Val × Nat)
  mandate_status_counts : List (Val × Nat)
  applied_filters : Option GraphFilters
  query_limit : Option Int
  query_offset : Option Int

/-- GraphService._calculate_metadata (src/services/graph_service.py):
totals, per-type node and edge counts, the mandate-status distribution
over OWNS edges carrying the property, and the echoed filters and
limit/offset. -/
def calculate_metadata (nodes : List NodeOut) (edges : List EdgeOut)
    (q : GraphQuery) : Metadata :=
  { total_nodes := nodes.length
  , total_edges := edges.length
  , node_type_counts := nodes.foldl (fun m nd => bump m nd.typeKey) []
  , edge_type_counts := edges.foldl (fun m e => bump m e.typeKey) []
  , mandate_status_counts :=
      edges.foldl (fun m e => if mandateGuard e then bump m e.mandateStatus else m) []
  , applied_filters := q.filters
  , query_limit := q.limit
  , query_offset := q.offset }

/-- Detail record returned by the node-detail query: the matched node, its
relationships and its connected nodes. -/
structure DetailRecord : Type where
  n : RawNode
  relationships : List RawRel
  connected_nodes : List RawNode
  deriving DecidableEq

/-- Relationship entry of the node-detail payload, as get_node_details
builds it (id, type, target, splatted properties). -/
structure RelDetail : Type where
  id : String
  type : String
  target : String
  props : List (String × Val)
  deriving DecidableEq

/-- Node-detail payload of GraphService.get_node_details. -/
structure NodeDetailPayload : Type where
  node : NodeOut
  relationships : List RelDetail
  connected_nodes_count : Nat
  deriving DecidableEq

/-- Modelled from the spec: the external traversal engine executing the
node-detail query (the engine is the graph database, a dependency outside
this repository).  It resolves the node whose engine id equals the bound
node_id parameter, returning the single record or none when the identifier
does not resolve to any entity. -/
def runDetailEngine (resolve : Int → Option DetailRecord) (params : Params) :
    Option DetailRecord :=
  match params.lookup "node_id" with
  | some (Val.int i) => resolve i
  | _ => none

/-- Relationship entry for one raw relationship of the detail record. -/
def mkRelDetail (rl : RawRel) : RelDetail :=
  { id := rl.id, type := rl.type, target := rl.endId, props := rl.props }

/-- GraphService.get_node_details (src/services/graph_service.py): builds
the detail query (int(node_id) can raise before any engine call), runs the
engine, and returns None when no record came back, else the payload. -/
def get_node_details (resolve : Int → Option DetailRecord) (node_id : String) :
    Except String (Option NodeDetailPayload) :=
  match build_node_detail_query node_id with
  | .error e => .error e
  | .ok (_, params) =>
    match runDetailEngine resolve params with
    | none => .ok none
    | some rec =>
      .ok (some { node := mkNodeOut rec.n
                , relationships := rec.relationships.map mkRelDetail
                , connected_nodes_count := rec.connected_nodes.length })

/-- HTTP outcome of the node-detail route. -/
inductive RouteResponse : Type where
  | ok (payload : NodeDetailPayload)
  | httpError (status : Nat) (detail : String)
  deriving DecidableEq

/-- Route GET /graph/node/node_id (src/api/routes.py).  The route body runs
inside `try ... except Exception as e: raise HTTPException(500, ...)`.
The `raise HTTPException(status_code=404, detail="Node not found")` for an
empty result is raised inside that try block, so the blanket except
catches it (starlette's HTTPException derives from Exception) and
re-raises it as a 500 whose detail embeds str(e) = "404: Node not found".
An error raised by query construction (int() on a non-decimal id) is
caught the same way. -/
def get_node_details_route (resolve : Int → Option DetailRecord)
    (node_id : String) : RouteResponse :=
  match get_node_details resolve node_id with
  | .error e => .httpError 500 ("Error retrieving node details: " ++ e)
  | .ok none => .httpError 500 "Error retrieving node details: 404: Node not found"
  | .ok (some payload) => .ok payload

/-! Spec-side definitions, for comparison with the code. -/

/-- Relationship-field test following the claim's words: a relationship
field compiled to a non-empty fragment when consultant_product_ratings is
set with a min or max key, or rating_range, rating_change, rank_group or
rank_order_range is set (set meaning Python-truthy: not None and
non-empty). -/
def specRelationshipFieldCompiled (fo : Option GraphFilters) : Bool :=
  match fo with
  | none => false
  | some f =>
    (truthy f.consultant_product_ratings
      && (hasKey "min" f.consultant_product_ratings
          || hasKey "max" f.consultant_product_ratings))
    || truthy f.rating_range
    || truthy f.rating_change
    || truthy f.rank_group
    || truthy f.rank_order_range

/-- Property value of an entity: absent, a bare string, or a string list
(the scalar-vs-collection storage ambiguity of the source data). -/
inductive PropVal : Type where
  | absent
  | str (s : String)
  | list (l : List String)
  deriving DecidableEq

/-- Modelled from the spec: Cypher evaluation of `x IN $set` by the
external engine (the engine is not part of this repository).  An absent
property is null and null IN list is not true; a list value is compared
whole against the string elements of the bound set, so it never matches. -/
def cypIn (v : PropVal) (requested : List String) : Bool :=
  match v with
  | .absent => false
  | .str s => requested.contains s
  | .list _ => false

/-- Modelled from the spec: Cypher evaluation of
`any(x IN prop WHERE x IN $set)` by the external engine.  Over null the
predicate is null (not true); over a collection it is true when some
element is in the bound set; over a bare non-list value it does not
match. -/
def cypAnyIn (v : PropVal) (requested : List String) : Bool :=
  match v with
  | .absent => false
  | .str _ => false
  | .list l => l.any requested.contains

/-- Evaluation of the compiled regions fragment on one entity, following
its three disjuncts: n.region IN $regions, any over n.sales_region, any
over n.region. -/
def evalRegionsPredicate (region sales_region : PropVal)
    (requested : List String) : Bool :=
  cypIn region requested || cypAnyIn sales_region requested
    || cypAnyIn region requested

/-- Evaluation of the compiled channels fragment on one entity, following
its two disjuncts: n.channel IN $channels, any over n.channel. -/
def evalChannelsPredicate (channel : PropVal) (requested : List String) : Bool :=
  cypIn channel requested || cypAnyIn channel requested

/-- Matching relation the claim describes for a scalar-or-collection
field: the bare value is in the requested set, or some element of a
collection value is; an absent property never matches. -/
def specScalarOrCollectionMatch (v : PropVal) (requested : List String) : Bool :=
  match v with
  | .absent => false
  | .str s => requested.contains s
  | .list l => l.any requested.contains

/-! Helper lemmas about the counts dicts. -/

theorem sumVals_bump (m : List (Val × Nat)) (k : Val) :
    sumVals (bump m k) = sumVals m + 1 := by
  induction m with
  | nil => simp [bump, sumVals]
  | cons p rest ih =>
    obtain ⟨k₂, v⟩ := p
    by_cases h : k₂ = k <;> simp [bump, h, sumVals] at ih ⊢ <;> omega

theorem sumVals_foldl_bump {α : Type} (key : α → Val) (l : List α)
    (m : List (Val × Nat)) :
    sumVals (l.foldl (fun acc x => bump acc (key x)) m) = sumVals m + l.length := by
  induction l generalizing m with
  | nil => simp
  | cons x xs ih => simp [ih, sumVals_bump]; omega

theorem sumVals_foldl_bump_guard {α : Type} (p : α → Bool) (key : α → Val)
    (l : List α) (m : List (Val × Nat)) :
    sumVals (l.foldl (fun acc x => if p x then bump acc (key x) else acc) m)
      = sumVals m + l.countP p := by
  induction l generalizing m with
  | nil => simp
  | cons x xs ih =>
    by_cases h : p x <;> simp [h, ih, sumVals_bump, List.countP_cons] <;> omega

theorem getCount_cons (k₂ : Val) (v : Nat) (m : List (Val × Nat)) (k : Val) :
    getCount ((k₂, v) :: m) k = (if k₂ = k then v else 0) + getCount m k := by
  by_cases h : k₂ = k <;> simp [getCount, List.filter_cons, h]

theorem getCount_bump (m : List (Val × Nat)) (j k : Val) :
    getCount (bump m j) k = getCount m k + (if j = k then 1 else 0) := by
  induction m with
  | nil =>
    by_cases h : j = k <;> simp [bump, getCount, List.filter_cons, h]
  | cons p rest ih =>
    obtain ⟨k₂, v⟩ := p
    by_cases h : k₂ = j
    · subst h
      by_cases h₂ : k₂ = k <;> simp [bump, getCount_cons, h₂] <;> omega
    · simp [bump, h, getCount_cons, ih]
      by_cases h₂ : k₂ = k <;> simp [h₂] <;> omega

theorem getCount_foldl_bump {α : Type} (key : α → Val) (l : List α)
    (m : List (Val × Nat)) (k : Val) :
    getCount (l.foldl (fun acc x => bump acc (key x)) m) k
      = getCount m k + l.countP (fun x => key x == k) := by
  induction l generalizing m with
  | nil => simp
  | cons x xs ih =>
    simp [ih, getCount_bump, List.countP_cons]
    by_cases h : key x = k <;> simp [h] <;> omega

theorem countP_and_le {α : Type} (p q : α → Bool) (l : List α) :
    l.countP (fun x => p x && q x) ≤ l.countP p := by
  induction l with
  | nil => simp
  | cons x xs ih =>
    by_cases hp : p x <;> by_cases hq : q x <;>
      simp [List.countP_cons, hp, hq] <;> omega

theorem countP_and_eq_iff {α : Type} (p q : α → Bool) (l : List α) :
    l.countP (fun x => p x && q x) = l.countP p
      ↔ ∀ x ∈ l, p x = true → q x = true := by
  induction l with
  | nil => simp
  | cons x xs ih =>
    have hle := countP_and_le p q xs
    by_cases hp : p x
    · by_cases hq : q x
      · simp [List.countP_cons, hp, hq, ih]
      · simp only [List.countP_cons, hp, hq, Bool.and_false, Bool.and_true,
          if_pos, if_neg, Bool.false_eq_true, ite_false, ite_true, Nat.add_zero]
        constructor
        · intro h
          omega
        · intro h
          exact absurd (h x (by simp) hp) (by simp [hq])
    · simp [List.countP_cons, hp, ih]

/-! Helper lemmas about the first-wins insert loop of the aggregator. -/

theorem foldl_insertBy {α β : Type} (key : α → String) (mk : α → β)
    (L : List α) (st : List β × List String) :
    L.foldl (insertBy key mk) st
      = (st.1 ++ (firstOccBy key st.2 L).map mk,
         st.2 ++ (firstOccBy key st.2 L).map key) := by
  induction L generalizing st with
  | nil => simp [firstOccBy]
  | cons x xs ih =>
    by_cases h : key x ∈ st.2
    · simp [List.foldl_cons, insertBy, h, firstOccBy, ih]
    · simp only [List.foldl_cons, insertBy, h, if_neg, ite_false, firstOccBy,
        if_neg h]
      rw [ih]
      simp [List.append_assoc]

theorem firstOccBy_append {α : Type} (key : α → String) (seen : List String)
    (L₁ L₂ : List α) :
    firstOccBy key seen (L₁ ++ L₂)
      = firstOccBy key seen L₁
        ++ firstOccBy key (seen ++ (firstOccBy key seen L₁).map key) L₂ := by
  induction L₁ generalizing seen with
  | nil => simp [firstOccBy]
  | cons x xs ih =>
    by_cases h : key x ∈ seen
    · simp [firstOccBy, h, ih]
    · simp [firstOccBy, h, ih, List.append_assoc]

theorem mem_of_mem_firstOccBy {α : Type} (key : α → String) (seen : List String)
    (L : List α) (x : α) (hx : x ∈ firstOccBy key seen L) : x ∈ L := by
  induction L generalizing seen with
  | nil => simpa [firstOccBy] using hx
  | cons y ys ih =>
    by_cases h : key y ∈ seen
    · simp only [firstOccBy, if_pos h] at hx
      exact List.mem_cons_of_mem _ (ih _ hx)
    · simp only [firstOccBy, if_neg h, List.mem_cons] at hx
      rcases hx with h₁ | h₂
      · exact h₁ ▸ List.mem_cons_self _ _
      · exact List.mem_cons_of_mem _ (ih _ h₂)

theorem mem_key_firstOccBy {α : Type} (key : α → String) (seen : List String)
    (L : List α) (s : String) :
    s ∈ (firstOccBy key seen L).map key ↔ s ∈ L.map key ∧ s ∉ seen := by
  induction L generalizing seen with
  | nil => simp [firstOccBy]
  | cons y ys ih =>
    by_cases h : key y ∈ seen
    · by_cases hs : s = key y
      · subst hs
        simp [firstOccBy, h, ih, h]
      · simp [firstOccBy, h, ih, hs, Ne.symm hs]
    · by_cases hs : s = key y
      · subst hs
        simp [firstOccBy, h, ih]
      · simp only [firstOccBy, if_neg h, List.map_cons, List.mem_cons,
          Ne.symm hs, false_or, ih, List.mem_append, List.mem_singleton, hs,
          or_false]
        tauto

theorem nodup_key_firstOccBy {α : Type} (key : α → String) (seen : List String)
    (L : List α) : ((firstOccBy key seen L).map key).Nodup := by
  induction L generalizing seen with
  | nil => simp [firstOccBy]
  | cons y ys ih =>
    by_cases h : key y ∈ seen
    · simp only [firstOccBy, if_pos h]
      exact ih seen
    · simp only [firstOccBy, if_neg h, List.map_cons, List.nodup_cons]
      refine ⟨fun hmem => ?_, ih _⟩
      have := (mem_key_firstOccBy key _ ys (key y)).mp hmem
      simp at this

theorem mem_concatMap {α β : Type} (f : α → List β) (l : List α) (x : β) :
    x ∈ concatMap f l ↔ ∃ a ∈ l, x ∈ f a := by
  induction l with
  | nil => simp [concatMap]
  | cons y ys ih => simp [concatMap, ih]

theorem foldl_processRecord (rows : List RawRecord) (st : AggState) :
    rows.foldl processRecord st
      = ((st.1.1 ++ (firstOccBy RawNode.id st.1.2 (concatMap rawNodesOf rows)).map mkNodeOut,
          st.1.2 ++ (firstOccBy RawNode.id st.1.2 (concatMap rawNodesOf rows)).map RawNode.id),
         (st.2.1 ++ (firstOccBy RawRel.id st.2.2 (concatMap rawRelsOf rows)).map mkEdgeOut,
          st.2.2 ++ (firstOccBy RawRel.id st.2.2 (concatMap rawRelsOf rows)).map RawRel.id)) := by
  induction rows generalizing st with
  | nil => simp [concatMap, firstOccBy]
  | cons r rows ih =>
    simp only [List.foldl_cons, processRecord, foldl_insertBy, ih, concatMap,
      firstOccBy_append, List.map_append, List.append_assoc]

/-- Characterization of _process_results: the node list is the first-wins
deduplication (keyed by engine id) of all non-null nodes in row order, and
the edge list the same over all non-null relationships. -/
theorem process_results_eq (rows : List RawRecord) :
    process_results rows
      = ((firstOccBy RawNode.id [] (concatMap rawNodesOf rows)).map mkNodeOut,
         (firstOccBy RawRel.id [] (concatMap rawRelsOf rows)).map mkEdgeOut) := by
  simp [process_results, foldl_processRecord]

/-! Helper lemmas about the query builder. -/

theorem build_graph_query_params (q : GraphQuery) :
    (build_graph_query q).2
      = (nodeConditions q.filters).2 ++ (relationshipFilters q.filters).2
        ++ [("limit", Val.int (pyOrInt q.limit 1000))] := rfl

theorem build_graph_query_shape (q : GraphQuery) :
    (build_graph_query q).1
      = (if (relationshipFilters q.filters).1 = [] then nodeOnlyBaseQuery
         else relationshipBaseQuery)
        ++ (if (nodeConditions q.filters).1 ++ (relationshipFilters q.filters).1 = [] then ""
            else " WHERE " ++ String.intercalate " AND "
              ((nodeConditions q.filters).1 ++ (relationshipFilters q.filters).1))
        ++ returnClause := by
  simp only [build_graph_query]
  rcases hR : (relationshipFilters q.filters).1 with _ | ⟨c, cs⟩ <;>
    rcases hN : (nodeConditions q.filters).1 with _ | ⟨d, ds⟩ <;>
      simp [hR, hN, String.append_assoc]

theorem relationshipFilters_nil_iff (fo : Option GraphFilters) :
    (relationshipFilters fo).1 = [] ↔ specRelationshipFieldCompiled fo = false := by
  cases fo with
  | none => simp [relationshipFilters, specRelationshipFieldCompiled]
  | some f =>
    cases h1 : (truthy f.consultant_product_ratings
        && (hasKey "min" f.consultant_product_ratings
            || hasKey "max" f.consultant_product_ratings)) <;>
      cases h2 : truthy f.rating_range <;>
      cases h3 : truthy f.rating_change <;>
      cases h4 : truthy f.rank_group <;>
      cases h5 : truthy f.rank_order_range <;>
        simp [relationshipFilters, specRelationshipFieldCompiled, pcat, condIf,
          condIf2, cprGuard, h1, h2, h3, h4, h5]

theorem lookup_append_none {α : Type} (a : String) {l₁ l₂ : List (String × α)}
    (h₁ : List.lookup a l₁ = none) (h₂ : List.lookup a l₂ = none) :
    List.lookup a (l₁ ++ l₂) = none := by
  induction l₁ with
  | nil => simpa using h₂
  | cons p t ih =>
    obtain ⟨k, v⟩ := p
    cases hb : (a == k) with
    | true => simp [List.lookup, hb] at h₁
    | false =>
      simp only [List.lookup, hb, List.cons_append] at h₁ ⊢
      exact ih h₁

theorem lookup_pcat_none (a : String) {x y : List String × Params}
    (h₁ : List.lookup a x.2 = none) (h₂ : List.lookup a y.2 = none) :
    List.lookup a (pcat x y).2 = none :=
  lookup_append_none a h₁ h₂

theorem lookup_condIf_none (a : String) (b : Bool) (frag : String)
    (name : String) (v : Val) (h : (a == name) = false) :
    List.lookup a (condIf b frag (name, v)).2 = none := by
  cases b <;> simp [condIf, List.lookup, h]

theorem lookup_condIf2_none (a : String) (b : Bool) (frag : String)
    (n₁ n₂ : String) (v₁ v₂ : Val) (h₁ : (a == n₁) = false)
    (h₂ : (a == n₂) = false) :
    List.lookup a (condIf2 b frag (n₁, v₁) (n₂, v₂)).2 = none := by
  cases b <;> simp [condIf2, List.lookup, h₁, h₂]

theorem lookup_nodeConditions_none (a : String) (fo : Option GraphFilters)
    (h : a ∉ ["node_types", "regions", "market", "channels", "asset_classes",
      "mandate_status", "privacy_levels", "level_of_influence", "pca", "aca",
      "field_consultant", "product", "client_companies",
      "consultant_companies", "client_advisors", "consultant_advisors"]) :
    List.lookup a (nodeConditions fo).2 = none := by
  simp only [List.mem_cons, List.mem_singleton, not_or] at h
  cases fo with
  | none => rfl
  | some f =>
    simp only [nodeConditions]
    repeat
      first
      | exact lookup_condIf_none a _ _ _ _ (beq_eq_false_iff_ne.mpr (by tauto))
      | apply lookup_pcat_none

theorem lookup_relationshipFilters_none (a : String) (fo : Option GraphFilters)
    (h : a ∉ ["min_rating", "max_rating", "rating_min", "rating_max",
      "rating_change", "rank_group", "rank_min", "rank_max"]) :
    List.lookup a (relationshipFilters fo).2 = none := by
  simp only [List.mem_cons, List.mem_singleton, not_or] at h
  cases fo with
  | none => rfl
  | some f =>
    simp only [relationshipFilters]
    repeat
      first
      | exact lookup_condIf_none a _ _ _ _ (beq_eq_false_iff_ne.mpr (by tauto))
      | exact lookup_condIf2_none a _ _ _ _ _ _
          (beq_eq_false_iff_ne.mpr (by tauto)) (beq_eq_false_iff_ne.mpr (by tauto))
      | apply lookup_pcat_none

@[simp] theorem mkNodeOut_id (nd : RawNode) : (mkNodeOut nd).id = nd.id := rfl

@[simp] theorem mkEdgeOut_id (rl : RawRel) : (mkEdgeOut rl).id = rl.id := rfl

@[simp] theorem mkEdgeOut_source (rl : RawRel) : (mkEdgeOut rl).source = rl.startId := rfl

@[simp] theorem mkEdgeOut_target (rl : RawRel) : (mkEdgeOut rl).target = rl.endId := rfl

/-- C1: build_graph_query uses the relationship-traversal base pattern
(MATCH (n)-[r]-(m)) exactly when at least one relationship field
(consultant_product_ratings with a min or max key, rating_range,
rating_change, rank_group, rank_order_range) compiled to a non-empty
fragment; with no such field it uses the node-only base pattern (MATCH (n)
with an OPTIONAL MATCH one-hop expansion); in either shape every compiled
node predicate is conjoined into the single WHERE clause, ahead of the
relationship predicates. -/
theorem c1_query_shape_selection (q : GraphQuery) :
    ((build_graph_query q).1
      = (if (relationshipFilters q.filters).1 = [] then nodeOnlyBaseQuery
         else relationshipBaseQuery)
        ++ (if (nodeConditions q.filters).1 ++ (relationshipFilters q.filters).1 = [] then ""
            else " WHERE " ++ String.intercalate " AND "
              ((nodeConditions q.filters).1 ++ (relationshipFilters q.filters).1))
        ++ returnClause)
    ∧ ((relationshipFilters q.filters).1 ≠ []
        ↔ specRelationshipFieldCompiled q.filters = true) := by
  refine ⟨build_graph_query_shape q, ?_⟩
  rw [Ne, relationshipFilters_nil_iff]
  cases specRelationshipFieldCompiled q.filters <;> simp

/-- C2 as stated is false: the aggregator only adds nodes that pass the
truthiness guards on a row's primary or connected-node slots, never a
relationship's endpoints themselves.  Here the single row reports a
property-carrying node 1, a property-less connected node 2 — which the
`if connected_node` guard skips, because a property-less driver Node is
falsy — and a property-carrying OWNS relationship 1 to 2, which is kept;
the output edge's target 2 is missing from the output node list. -/
theorem c2_counterexample :
    ¬ (∀ e ∈ (process_results
        [⟨some ⟨"1", ["COMPANY"], [("name", Val.str "A")]⟩,
          [some ⟨"2", ["PRODUCT"], []⟩],
          [some ⟨"10", "1", "2", "OWNS", [("mandate_status", Val.str "Active")]⟩]⟩]).2,
        e.source ∈ ((process_results
          [⟨some ⟨"1", ["COMPANY"], [("name", Val.str "A")]⟩,
            [some ⟨"2", ["PRODUCT"], []⟩],
            [some ⟨"10", "1", "2", "OWNS", [("mandate_status", Val.str "Active")]⟩]⟩]).1.map NodeOut.id)
        ∧ e.target ∈ ((process_results
          [⟨some ⟨"1", ["COMPANY"], [("name", Val.str "A")]⟩,
            [some ⟨"2", ["PRODUCT"], []⟩],
            [some ⟨"10", "1", "2", "OWNS", [("mandate_status", Val.str "Active")]⟩]⟩]).1.map NodeOut.id)) := by
  decide

/-- C2, amended: for every raw row sequence in which each kept
relationship's endpoints appear among the same row's kept nodes — the
nodes of the row's primary and connected slots that pass the truthiness
guards, i.e. are non-null and carry at least one property — every output
edge has its source and target ids present among the output node ids;
such connected entities are added even when they did not independently
satisfy the node predicates. -/
theorem c2_endpoints_in_nodes (rows : List RawRecord)
    (h : ∀ r ∈ rows, ∀ rl ∈ rawRelsOf r,
        rl.startId ∈ (rawNodesOf r).map RawNode.id
          ∧ rl.endId ∈ (rawNodesOf r).map RawNode.id) :
    ∀ e ∈ (process_results rows).2,
      e.source ∈ ((process_results rows).1.map NodeOut.id)
        ∧ e.target ∈ ((process_results rows).1.map NodeOut.id) := by
  intro e he
  rw [process_results_eq] at he
  have hmap : ((firstOccBy RawNode.id [] (concatMap rawNodesOf rows)).map
      mkNodeOut).map NodeOut.id
      = (firstOccBy RawNode.id [] (concatMap rawNodesOf rows)).map RawNode.id := by
    simp [List.map_map, Function.comp_def]
  have hgoal : ∀ s : String,
      s ∈ (concatMap rawNodesOf rows).map RawNode.id →
      s ∈ ((process_results rows).1.map NodeOut.id) := by
    intro s hs
    rw [process_results_eq]
    simp only [hmap]
    exact (mem_key_firstOccBy RawNode.id [] _ s).mpr ⟨hs, by simp⟩
  obtain ⟨rl, hrl, rfl⟩ := List.mem_map.mp he
  have hrl₂ : rl ∈ concatMap rawRelsOf rows := mem_of_mem_firstOccBy _ _ _ _ hrl
  obtain ⟨r, hr, hrl₃⟩ := (mem_concatMap _ _ _).mp hrl₂
  obtain ⟨hs, ht⟩ := h r hr rl hrl₃
  have lift : ∀ s : String, s ∈ (rawNodesOf r).map RawNode.id →
      s ∈ (concatMap rawNodesOf rows).map RawNode.id := by
    intro s hmem
    obtain ⟨nd, hnd, hid⟩ := List.mem_map.mp hmem
    exact List.mem_map.mpr ⟨nd, (mem_concatMap _ _ _).mpr ⟨r, hr, hnd⟩, hid⟩
  exact ⟨by simpa using hgoal _ (lift _ hs), by simpa using hgoal _ (lift _ ht)⟩

/-- Witness for the amended C2 at a concrete well-formed row sequence:
one row reporting a property-carrying node 1, a property-carrying
connected node 2 and the property-carrying OWNS relationship between
them. -/
theorem c2_endpoints_in_nodes_witness :
    (∀ r ∈ [(⟨some ⟨"1", ["COMPANY"], [("name", Val.str "A")]⟩,
        [some ⟨"2", ["PRODUCT"], [("name", Val.str "P")]⟩],
        [some ⟨"10", "1", "2", "OWNS", [("mandate_status", Val.str "Active")]⟩]⟩ : RawRecord)],
      ∀ rl ∈ rawRelsOf r,
        rl.startId ∈ (rawNodesOf r).map RawNode.id
          ∧ rl.endId ∈ (rawNodesOf r).map RawNode.id)
    ∧ (∀ e ∈ (process_results
        [(⟨some ⟨"1", ["COMPANY"], [("name", Val.str "A")]⟩,
          [some ⟨"2", ["PRODUCT"], [("name", Val.str "P")]⟩],
          [some ⟨"10", "1", "2", "OWNS", [("mandate_status", Val.str "Active")]⟩]⟩ : RawRecord)]).2,
      e.source ∈ ((process_results
        [(⟨some ⟨"1", ["COMPANY"], [("name", Val.str "A")]⟩,
          [some ⟨"2", ["PRODUCT"], [("name", Val.str "P")]⟩],
          [some ⟨"10", "1", "2", "OWNS", [("mandate_status", Val.str "Active")]⟩]⟩ : RawRecord)]).1.map NodeOut.id)
        ∧ e.target ∈ ((process_results
        [(⟨some ⟨"1", ["COMPANY"], [("name", Val.str "A")]⟩,
          [some ⟨"2", ["PRODUCT"], [("name", Val.str "P")]⟩],
          [some ⟨"10", "1", "2", "OWNS", [("mandate_status", Val.str "Active")]⟩]⟩ : RawRecord)]).1.map NodeOut.id)) :=
  ⟨by decide, c2_endpoints_in_nodes _ (by decide)⟩

/-- C3 as stated is false: the aggregator does not keep the
first-encountered snapshot of an id.  A property-less snapshot is falsy
under the `if` guards and is skipped entirely, so when id 1 first occurs
with no properties and later occurs with a property, the output keeps the
later, property-carrying snapshot, not the first-encountered one. -/
theorem c3_counterexample :
    (process_results
      [⟨some ⟨"1", ["COMPANY"], []⟩, [], []⟩,
       ⟨some ⟨"1", ["COMPANY"], [("name", Val.str "A")]⟩, [], []⟩]).1
      = [mkNodeOut ⟨"1", ["COMPANY"], [("name", Val.str "A")]⟩]
    ∧ (process_results
      [⟨some ⟨"1", ["COMPANY"], []⟩, [], []⟩,
       ⟨some ⟨"1", ["COMPANY"], [("name", Val.str "A")]⟩, [], []⟩]).1
      ≠ [mkNodeOut ⟨"1", ["COMPANY"], []⟩] := by
  decide

/-- C3, amended: the output node and edge lists carry no duplicate id
values, and each equals the first-wins deduplication (keyed by engine id)
of the occurrences that pass the truthiness guards: property-less nodes
and relationships are falsy and never enter the output at all (in this
schema every EMPLOYS and COVERS relationship), and among the kept
occurrences of an id the first-encountered snapshot wins and every later
one is discarded, never merged, whatever properties it carries. -/
theorem c3_first_wins_dedup (rows : List RawRecord) :
    ((process_results rows).1.map NodeOut.id).Nodup
    ∧ ((process_results rows).2.map EdgeOut.id).Nodup
    ∧ (process_results rows).1
        = (firstOccBy RawNode.id [] (concatMap rawNodesOf rows)).map mkNodeOut
    ∧ (process_results rows).2
        = (firstOccBy RawRel.id [] (concatMap rawRelsOf rows)).map mkEdgeOut
    ∧ (∀ i ls, truthyNode (some ⟨i, ls, []⟩) = none)
    ∧ (∀ i s t ty, truthyRel (some ⟨i, s, t, ty, []⟩) = none) := by
  have hp := process_results_eq rows
  refine ⟨?_, ?_, by rw [hp], by rw [hp], fun i ls => rfl, fun i s t ty => rfl⟩
  · rw [hp]
    have h := nodup_key_firstOccBy RawNode.id [] (concatMap rawNodesOf rows)
    simpa [List.map_map, Function.comp_def] using h
  · rw [hp]
    have h := nodup_key_firstOccBy RawRel.id [] (concatMap rawRelsOf rows)
    simpa [List.map_map, Function.comp_def] using h

/-- C4: the metadata totals equal the lengths of the lists they were
derived from, the per-kind counts (keyed by the effective type value, with
label-less nodes typed Unknown at aggregation) sum to total_nodes, and a
raw node with no labels is indeed typed Unknown by the aggregator. -/
theorem c4_metadata_totals (nodes : List NodeOut) (edges : List EdgeOut)
    (q : GraphQuery) :
    (calculate_metadata nodes edges q).total_nodes = nodes.length
    ∧ (calculate_metadata nodes edges q).total_edges = edges.length
    ∧ sumVals (calculate_metadata nodes edges q).node_type_counts
        = (calculate_metadata nodes edges q).total_nodes
    ∧ (∀ nd : RawNode, (mkNodeOut nd).type = nd.labels.headD "Unknown") := by
  refine ⟨rfl, rfl, ?_, fun nd => rfl⟩
  show sumVals (nodes.foldl (fun m nd => bump m nd.typeKey) []) = nodes.length
  rw [sumVals_foldl_bump]
  simp [sumVals]

/-- C5: the numeric range filters fill missing bounds from dict.get
defaults — rating range 0/10, rank-order range 1/100 — so a range with
only one bound compiles to exactly the same query and parameter map as the
same range completed with the matching domain floor or ceiling, whatever
else the filter holds. -/
theorem c5_range_defaults (q : GraphQuery) (f : GraphFilters) (g : Rat) (k : Int) :
    build_graph_query { q with filters := some { f with rating_range := some [("min", g)] } }
      = build_graph_query { q with filters := some { f with rating_range := some [("min", g), ("max", 10)] } }
    ∧ build_graph_query { q with filters := some { f with rating_range := some [("max", g)] } }
      = build_graph_query { q with filters := some { f with rating_range := some [("min", 0), ("max", g)] } }
    ∧ build_graph_query { q with filters := some { f with rank_order_range := some [("min", k)] } }
      = build_graph_query { q with filters := some { f with rank_order_range := some [("min", k), ("max", 100)] } }
    ∧ build_graph_query { q with filters := some { f with rank_order_range := some [("max", k)] } }
      = build_graph_query { q with filters := some { f with rank_order_range := some [("min", 1), ("max", k)] } } :=
  ⟨rfl, rfl, rfl, rfl⟩

/-- C6 as stated is false for the regions field: the compiled regions
predicate also consults the sales_region property, so an entity whose
region property is entirely absent still matches when some element of its
sales_region is in the requested set — here region is absent,
sales_region is the list with EMEA, the requested set is EMEA, and the
predicate matches, contradicting the claim that it never matches an
entity on which the property is entirely absent. -/
theorem c6_counterexample :
    evalRegionsPredicate PropVal.absent (PropVal.list ["EMEA"]) ["EMEA"] = true := by
  decide

/-- Filter of scenario A of the spec: node_types Professional
(CONSULTANT) and regions EMEA, no relationship field. -/
def scenarioAFilters : GraphFilters :=
  { node_types := some [NodeType.CONSULTANT], regions := some ["EMEA"] }

set_option maxRecDepth 4096 in
/-- C6, amended: the channels predicate matches exactly when the bare
channel value is in the requested set or some element of a
collection-valued channel is, and never matches an absent channel; the
regions predicate matches under the same scalar-or-collection relation on
region, extended by any sales_region element in the requested set, and
never matches when region and sales_region are both absent.  With filter
node_types CONSULTANT and regions EMEA no relationship filter compiles
(node-only shape) and the regions fragment is among the compiled node
predicates; a bare region EMEA and a collection region containing EMEA
both match. -/
theorem c6_scalar_or_collection (requested : List String) (v reg sreg : PropVal) :
    (evalChannelsPredicate v requested = specScalarOrCollectionMatch v requested)
    ∧ (evalRegionsPredicate reg sreg requested
        = (specScalarOrCollectionMatch reg requested || cypAnyIn sreg requested))
    ∧ evalRegionsPredicate PropVal.absent PropVal.absent requested = false
    ∧ evalChannelsPredicate PropVal.absent requested = false
    ∧ (relationshipFilters (some scenarioAFilters)).1 = []
    ∧ regionsFragment ∈ (nodeConditions (some scenarioAFilters)).1
    ∧ evalRegionsPredicate (PropVal.str "EMEA") PropVal.absent ["EMEA"] = true
    ∧ evalRegionsPredicate (PropVal.list ["EMEA", "APAC"]) PropVal.absent ["EMEA"] = true := by
  refine ⟨?_, ?_, rfl, rfl, by decide, by decide, by decide, by decide⟩
  · cases v <;> simp [evalChannelsPredicate, cypIn, cypAnyIn, specScalarOrCollectionMatch]
  · cases reg <;>
      simp [evalRegionsPredicate, cypIn, cypAnyIn, specScalarOrCollectionMatch,
        Bool.or_comm, Bool.or_assoc, Bool.or_left_comm]

/-- C7: the code contradicts the NotFound contract.  For an identifier
that resolves to no entity the service returns None and the route raises
HTTPException(404) inside its own try block, whose blanket
`except Exception` converts it to a 500 whose detail embeds
str(HTTPException(404, "Node not found")); the caller therefore sees 500,
not NotFound, at this failing input. -/
theorem c7_unknown_id_returns_500 :
    get_node_details_route (fun _ => none) "999"
      = RouteResponse.httpError 500 "Error retrieving node details: 404: Node not found"
    ∧ get_node_details (fun _ => none) "999" = Except.ok none := by
  constructor <;> rfl

theorem lookup_append_right {α : Type} (a : String) {l₁ l₂ : List (String × α)}
    (h : List.lookup a l₁ = none) :
    List.lookup a (l₁ ++ l₂) = List.lookup a l₂ := by
  induction l₁ with
  | nil => simp
  | cons p t ih =>
    obtain ⟨k, v⟩ := p
    cases hb : (a == k) with
    | true => simp [List.lookup, hb] at h
    | false =>
      simp only [List.lookup, hb, List.cons_append] at h ⊢
      exact ih h

/-- C8 as stated is false on the offset side: for the default bulk query
(no filters, limit and offset left to their model defaults) the emitted
parameter map is exactly the limit binding — it contains no offset
parameter at all, and the emitted query text carries no skip clause, so
the offset is not applied to the emitted query. -/
theorem c8_counterexample :
    (build_graph_query { filters := none }).2 = [("limit", Val.int 1000)]
    ∧ List.lookup "offset" (build_graph_query { filters := none }).2 = none
    ∧ (build_graph_query { filters := none }).1
        = nodeOnlyBaseQuery ++ returnClause :=
  ⟨rfl, rfl, rfl⟩

/-- C8, amended: the emitted parameter map always binds limit to
query.limit or 1000 (so the 1000 default is applied when the caller omits
the limit, whose request-model default is also 1000), and the query text
applies it through the trailing LIMIT clause; the request model defaults
offset to 0, but no offset parameter is ever bound and the emitted query
does not apply an offset. -/
theorem c8_limit_applied_offset_not (q : GraphQuery) :
    List.lookup "limit" (build_graph_query q).2
        = some (Val.int (pyOrInt q.limit 1000))
    ∧ List.lookup "offset" (build_graph_query q).2 = none
    ∧ ({ filters := none } : GraphQuery).limit = some 1000
    ∧ ({ filters := none } : GraphQuery).offset = some 0 := by
  refine ⟨?_, ?_, rfl, rfl⟩
  · rw [build_graph_query_params,
      lookup_append_right "limit" (lookup_append_none "limit"
        (lookup_nodeConditions_none "limit" q.filters (by decide))
        (lookup_relationshipFilters_none "limit" q.filters (by decide)))]
    simp [List.lookup]
  · rw [build_graph_query_params,
      lookup_append_right "offset" (lookup_append_none "offset"
        (lookup_nodeConditions_none "offset" q.filters (by decide))
        (lookup_relationshipFilters_none "offset" q.filters (by decide)))]
    simp [List.lookup]

/-- C9: the mandate-status distribution counts exactly the OWNS-typed
edges that carry the mandate_status key, so the sum of its values equals
that count, is at most the number of OWNS edges — which is what
edge_type_counts records for the OWNS key — with equality precisely when
every OWNS edge carries the property; edges of any other type never
contribute to the distribution. -/
theorem c9_mandate_distribution (nodes : List NodeOut) (edges : List EdgeOut)
    (q : GraphQuery) :
    sumVals (calculate_metadata nodes edges q).mandate_status_counts
        = edges.countP (fun e => (e.typeKey == Val.str "OWNS") && e.hasMandateStatus)
    ∧ sumVals (calculate_metadata nodes edges q).mandate_status_counts
        ≤ edges.countP (fun e => e.typeKey == Val.str "OWNS")
    ∧ getCount (calculate_metadata nodes edges q).edge_type_counts (Val.str "OWNS")
        = edges.countP (fun e => e.typeKey == Val.str "OWNS")
    ∧ (sumVals (calculate_metadata nodes edges q).mandate_status_counts
          = edges.countP (fun e => e.typeKey == Val.str "OWNS")
        ↔ ∀ e ∈ edges, (e.typeKey == Val.str "OWNS") = true
            → e.hasMandateStatus = true) := by
  have h₁ : sumVals (calculate_metadata nodes edges q).mandate_status_counts
      = edges.countP (fun e => (e.typeKey == Val.str "OWNS") && e.hasMandateStatus) := by
    show sumVals (edges.foldl
      (fun m e => if mandateGuard e then bump m e.mandateStatus else m) []) = _
    rw [sumVals_foldl_bump_guard]
    simp only [sumVals, List.map_nil, List.sum_nil, Nat.zero_add]
    exact List.countP_congr (fun e _ => by simp [mandateGuard])
  have h₂ : getCount (calculate_metadata nodes edges q).edge_type_counts (Val.str "OWNS")
      = edges.countP (fun e => e.typeKey == Val.str "OWNS") := by
    show getCount (edges.foldl (fun m e => bump m e.typeKey) []) (Val.str "OWNS") = _
    rw [getCount_foldl_bump]
    simp [getCount]
  refine ⟨h₁, ?_, h₂, ?_⟩
  · rw [h₁]
    exact countP_and_le _ _ edges
  · rw [h₁]
    exact countP_and_eq_iff _ _ edges

/-- C10: build_node_detail_query converts the supplied identifier with
int(node_id) before any engine call, so for every identifier string that
is not a decimal integer, query construction itself raises the error and
get_node_details fails identically for every possible engine — the engine
is only ever reached for identifiers that parse as integers. -/
theorem c10_detail_requires_int_id (s : String) (h : pyInt? s = none) :
    build_node_detail_query s
        = Except.error ("invalid literal for int() with base 10: " ++ s)
    ∧ ∀ resolve : Int → Option DetailRecord,
        get_node_details resolve s
          = Except.error ("invalid literal for int() with base 10: " ++ s) := by
  constructor
  · simp [build_node_detail_query, h]
  · intro resolve
    simp [get_node_details, build_node_detail_query, h]

/-- Witness for C10 at the concrete non-decimal identifier abc. -/
theorem c10_detail_requires_int_id_witness :
    pyInt? "abc" = none
    ∧ (build_node_detail_query "abc"
          = Except.error ("invalid literal for int() with base 10: " ++ "abc")
        ∧ ∀ resolve : Int → Option DetailRecord,
            get_node_details resolve "abc"
              = Except.error ("invalid literal for int() with base 10: " ++ "abc")) :=
  ⟨by decide, c10_detail_requires_int_id "abc" (by decide)⟩
